import Mathlib

set_option maxHeartbeats 1000000

/-!
Shallow embedding of the customer-support triage core
(`src/main/classifier.py`, `src/main/crew_scaffold.py`,
`src/main/support_store.py`).

The language-model gateway is an external collaborator: its observable
behaviour at the classifier is either an exception raised inside the
`try` block of `classify` (transport failure, or `json.loads` failing on
non-JSON content) or a successfully parsed JSON value.  We therefore model
the gateway outcome at the post-parse level with an inductive `Json` type
of Python values.  JSON numbers are modelled as integers: no claim depends
on floats, and a float-valued field behaves like any other non-string,
non-synonym value here.  Python `str.strip`, `str.lower` and the regex
classes `\d`/`\w` are modelled character-wise over the ASCII alphabet the
program works with (`pyStrip`, `pyLower`, `isWordChar`).
-/

/-- Python `str.strip()`: drop leading and trailing whitespace. -/
def pyStrip (s : String) : String :=
  (((s.data.dropWhile Char.isWhitespace).reverse.dropWhile Char.isWhitespace).reverse).asString

/-- Python `str.lower()` over the ASCII alphabet used here. -/
def pyLower (s : String) : String :=
  (s.data.map Char.toLower).asString

/-- Python `str.replace(" ", "_")`: the pattern is a single character, so
this is a character-wise substitution. -/
def pyReplaceSpaceUnderscore (s : String) : String :=
  (s.data.map (fun c => if c = ' ' then '_' else c)).asString

/-- Model of a parsed JSON value (`json.loads` output), i.e. the Python
values the classifier inspects after parsing. -/
inductive Json where
  | null
  | bool (b : Bool)
  | num (n : Int)
  | str (s : String)
  | arr (elems : List Json)
  | obj (fields : List (String × Json))

/-- Whether a Python value is a string (`isinstance(x, str)`). -/
def Json.isStringValue : Json → Bool
  | .str _ => true
  | _ => false

/-- Python truthiness of a parsed JSON value (`bool(x)`):
`None`, `False`, `0`, `""`, `[]` and the empty dict are falsy. -/
def pyTruthy : Json → Bool
  | .null => false
  | .bool b => b
  | .num n => n != 0
  | .str s => s != ""
  | .arr elems => !elems.isEmpty
  | .obj fields => !fields.isEmpty

/-- A single-quote character, used by the Python `repr` of strings. -/
def singleQuote : String := String.singleton (Char.ofNat 39)

mutual

/-- Model of Python `repr` on parsed JSON values (string escaping inside
containers is not modelled; no claim depends on it, since any `repr` of a
container contains a bracket and so never matches a label synonym). -/
def pyRepr : Json → String
  | .null => "None"
  | .bool true => "True"
  | .bool false => "False"
  | .num n => toString n
  | .str s => singleQuote ++ s ++ singleQuote
  | .arr elems => "[" ++ pyReprList elems ++ "]"
  | .obj fields => "\x7b" ++ pyReprFields fields ++ "\x7d"

/-- `repr` of the elements of a Python list, comma separated. -/
def pyReprList : List Json → String
  | [] => ""
  | [j] => pyRepr j
  | j :: rest => pyRepr j ++ ", " ++ pyReprList rest

/-- `repr` of the items of a Python dict, comma separated. -/
def pyReprFields : List (String × Json) → String
  | [] => ""
  | [(k, v)] => pyRepr (.str k) ++ ": " ++ pyRepr v
  | (k, v) :: rest => pyRepr (.str k) ++ ": " ++ pyRepr v ++ ", " ++ pyReprFields rest

end

/-- Model of Python `str(x)` on a parsed JSON value. -/
def pyStr : Json → String
  | .str s => s
  | j => pyRepr j

/-- Model of Python `dict.get(key)` on a parsed JSON object (the fields of
an object produced by `json.loads` have pairwise-distinct keys). -/
def jsonGet (fields : List (String × Json)) (key : String) : Option Json :=
  (fields.find? (fun kv => kv.1 == key)).map (fun kv => kv.2)

/-- `ClassificationLabel` from `classifier.py`: the closed three-label enum. -/
inductive ClassificationLabel where
  | POSITIVE_FEEDBACK
  | NEGATIVE_FEEDBACK
  | QUERY
deriving DecidableEq

/-- `ClassificationResult` from `classifier.py`.  The Python dataclass
declares `rationale: Optional[str]`, but `classify` actually stores whatever
Python value the expression `parsed.get("rationale") or default` produced,
so the field is modelled as a Python value (`Json.null` playing `None`). -/
structure ClassificationResult where
  label : ClassificationLabel
  rationale : Json

/-- The Python exceptions the embedded code can raise. -/
inductive PyErr where
  /-- `ValueError` from the empty-message guard. -/
  | valueError
  /-- `AttributeError` from `parsed.get(...)` when `json.loads` returned a
  non-dict value; in the source this line sits outside the `try` block. -/
  | attributeError
  /-- `TypeError` from `rationale += f" trace_id=..."` when the
  model-supplied rationale is a truthy non-string value. -/
  | typeError
deriving DecidableEq

/-- Observable behaviour of the gateway at `classify`'s `try` block:
`failure` is any exception raised inside it (unreachable gateway, transport
or auth error, or content on which `json.loads` raises, i.e. a
malformed/non-JSON response); `parsed j` is a successful call whose content
parsed to the JSON value `j`.  A `None` content is replaced by `"{}"` in
the source and so arrives here as `parsed (Json.obj [])`. -/
inductive GatewayOutcome where
  | failure
  | parsed (j : Json)

/-- `classify` from `classifier.py`.  The outbound gateway call is the
`outcome` argument; everything after it mirrors the source line by line. -/
def classify (message : String) (outcome : GatewayOutcome)
    (traceId : Option String) : Except PyErr ClassificationResult :=
  let text := pyStrip message
  if text = "" then
    .error .valueError
  else
    match outcome with
    | .failure =>
      let rationale := "Classifier unavailable; routing to query handler."
      let rationale :=
        match traceId with
        | some t => rationale ++ " trace_id=" ++ t
        | none => rationale
      .ok { label := .QUERY, rationale := .str rationale }
    | .parsed j =>
      match j with
      | .obj fields =>
        let labelValue :=
          pyReplaceSpaceUnderscore (pyLower (pyStrip (pyStr ((jsonGet fields "label").getD (.str "")))))
        let label : ClassificationLabel :=
          if labelValue = "positive" ∨ labelValue = "positive_feedback" ∨ labelValue = "pos" then
            .POSITIVE_FEEDBACK
          else if labelValue = "negative" ∨ labelValue = "negative_feedback" ∨ labelValue = "neg" then
            .NEGATIVE_FEEDBACK
          else
            .QUERY
        let rationale : Json :=
          match jsonGet fields "rationale" with
          | some v => if pyTruthy v then v else .str "No rationale provided by model."
          | none => .str "No rationale provided by model."
        match traceId with
        | some t =>
          match rationale with
          | .str s => .ok { label := label, rationale := .str (s ++ " trace_id=" ++ t) }
          | _ => .error .typeError
        | none => .ok { label := label, rationale := rationale }
      | _ => .error .attributeError

/-- A row of the `support_tickets` table from `support_store.py`. -/
structure Ticket where
  ticket_number : String
  status : String
  message : String
deriving DecidableEq

/-- The ticket store: the rows of the `support_tickets` table
(`ticket_number` is a UNIQUE key, which `INSERT OR REPLACE` maintains). -/
structure Store where
  tickets : List Ticket
deriving DecidableEq

/-- A freshly initialised store (`init_db` creates the schema only). -/
def emptyStore : Store := ⟨[]⟩

/-- `create_ticket` from `support_store.py`: `INSERT OR REPLACE` deletes any
row with the same unique `ticket_number` and inserts the new row. -/
def create_ticket (ticket_number message status : String) (store : Store) : Store :=
  ⟨⟨ticket_number, status, message⟩ ::
    store.tickets.filter (fun t => t.ticket_number != ticket_number)⟩

/-- `get_ticket_status` from `support_store.py`: point lookup of the status
by ticket number, `none` when no row matches. -/
def get_ticket_status (ticket_number : String) (store : Store) : Option String :=
  (store.tickets.find? (fun t => t.ticket_number == ticket_number)).map
    (fun t => t.status)

/-- `_generate_ticket_number` from `crew_scaffold.py`:
`f"{secrets.randbelow(900000) + 100000}"`, with `r` the value drawn by
`secrets.randbelow(900000)` (so `r < 900000`). -/
def generate_ticket_number (r : Nat) : String := toString (r + 100000)

/-- Python `\w` (word character) over the ASCII alphabet used here. -/
def isWordChar (c : Char) : Bool := c.isAlphanum || c == '_'

/-- Six consecutive digit characters of `l` start at index `i`
(the `\d{6}` part of the pattern in `_extract_ticket_number`). -/
def sixDigitsAt (l : List Char) (i : Nat) : Bool :=
  ((l.drop i).take 6).length == 6 && ((l.drop i).take 6).all Char.isDigit

/-- The `\b` word boundary holds just before index `i`. -/
def boundaryBefore (l : List Char) (i : Nat) : Bool :=
  i == 0 || (l.get? (i - 1)).all (fun c => !isWordChar c)

/-- The `\b` word boundary holds just after index `i + 5`. -/
def boundaryAfter (l : List Char) (i : Nat) : Bool :=
  (l.get? (i + 6)).all (fun c => !isWordChar c)

/-- The regex `\b(\d{6})\b` matches `l` at index `i`: a standalone run of
exactly six consecutive digits starts there. -/
def standalone6At (l : List Char) (i : Nat) : Bool :=
  sixDigitsAt l i && boundaryBefore l i && boundaryAfter l i

/-- Leftmost-match scan of `re.search`: try `fuel` start positions from `i`. -/
def firstMatchAux (l : List Char) : Nat → Nat → Option Nat
  | _, 0 => none
  | i, fuel + 1 =>
    if standalone6At l i then some i else firstMatchAux l (i + 1) fuel

/-- `_extract_ticket_number` from `crew_scaffold.py`:
`re.search(r"\b(\d{6})\b", text)`, returning the captured six digits of the
leftmost match, or `None`. -/
def extract_ticket_number (s : String) : Option String :=
  (firstMatchAux s.data 0 s.data.length).map
    (fun i => ((s.data.drop i).take 6).asString)

/-- Python truthiness of an `Optional[str]` (`None` and `""` are falsy). -/
def pyTruthyStrOpt : Option String → Bool
  | none => false
  | some s => s != ""

/-- Description of the `Task` built by `_positive_feedback_task`. -/
def positiveTaskDescription (message : String) : String :=
  "Customer message: " ++ message ++ "\n" ++
  "Respond with format: `Thank you for your kind words, [CustomerName]! We" ++
  singleQuote ++ "re delighted to assist you.` " ++
  "If no name is provided, omit the name gracefully.\n" ++
  "Keep it to 1-2 sentences. Include the trace_id if provided."

/-- Description of the `Task` built by `_negative_feedback_task`. -/
def negativeTaskDescription (message ticket_number : String) : String :=
  "Customer message: " ++ message ++ "\n" ++
  "Ticket number: " ++ ticket_number ++ "\n" ++
  "Respond with empathy, apologize, and include the ticket number.\n" ++
  "Format guidance: `We apologize for the inconvenience. A new ticket #[TicketNumber] has been generated, and our team will follow up shortly.`\n" ++
  "Keep it to 1-2 sentences. Include the trace_id if provided."

/-- The `status_text` computed in `_query_task` (Python truthiness of the
two optional strings mirrored exactly). -/
def queryStatusText (ticketNumber ticketStatus : Option String) : String :=
  if pyTruthyStrOpt ticketNumber && pyTruthyStrOpt ticketStatus then
    "Ticket " ++ ticketNumber.getD "" ++ " status: " ++ ticketStatus.getD ""
  else if pyTruthyStrOpt ticketNumber then
    "Ticket " ++ ticketNumber.getD "" ++ " not found."
  else
    "No ticket number detected."

/-- Description of the `Task` built by `_query_task`. -/
def queryTaskDescription (message : String) (ticketNumber ticketStatus : Option String) : String :=
  "Customer message: " ++ message ++ "\n" ++
  queryStatusText ticketNumber ticketStatus ++ "\n" ++
  "If ticket status is known, return it. If not found, state that. " ++
  "If no ticket number is present, ask politely for one. " ++
  "Keep it to 1-2 sentences. Include the trace_id if provided."

/-- `handle_message` from `crew_scaffold.py`, modelled up to the point where
the assembled `Task` is handed to the responder crew: it returns the task
description built for the responder together with the store after the
request.  `init_db` only creates the schema if absent and is the identity
on the rows.  `r` is the value drawn by `secrets.randbelow(900000)` on the
negative path.  The final `crew.kickoff` responder call is the external
language-model collaborator and is outside the model. -/
def handle_message (message : String) (traceId : Option String)
    (outcome : GatewayOutcome) (r : Nat) (store : Store) :
    Except PyErr (String × Store) :=
  match classify message outcome traceId with
  | .error e => .error e
  | .ok classification =>
    match classification.label with
    | .QUERY =>
      let ticketNumber := extract_ticket_number message
      let ticketStatus :=
        if pyTruthyStrOpt ticketNumber then
          get_ticket_status (ticketNumber.getD "") store
        else
          none
      .ok (queryTaskDescription message ticketNumber ticketStatus, store)
    | .POSITIVE_FEEDBACK =>
      .ok (positiveTaskDescription message, store)
    | .NEGATIVE_FEEDBACK =>
      let ticketNumber := generate_ticket_number r
      let store2 := create_ticket ticketNumber message "Unresolved" store
      .ok (negativeTaskDescription message ticketNumber, store2)

/-- Decimal digit characters of `n`, most significant first; proved below to
be exactly the list of characters that `Nat.repr` (hence `toString`)
produces. -/
def reprDigits (n : Nat) : List Char :=
  if _h : n < 10 then [Nat.digitChar n]
  else reprDigits (n / 10) ++ [Nat.digitChar (n % 10)]
termination_by n
decreasing_by
  exact Nat.div_lt_self (by omega) (by omega)

/-- A `create_ticket(ticket_number, message, status)` call, with the fields
in the source argument order. -/
abbrev CreateOp := String × String × String

/-- Run a sequence of `create_ticket` calls against a store, oldest first. -/
def applyCreates (store : Store) (ops : List CreateOp) : Store :=
  ops.foldl (fun st op => create_ticket op.1 op.2.1 op.2.2 st) store

/-- Spec-side: the status argument of the most recent create with key `k`,
absent when no create used key `k`. -/
def lastCreateStatus (ops : List CreateOp) (k : String) : Option String :=
  (ops.reverse.find? (fun op => op.1 == k)).map (fun op => op.2.2)

/-- Spec-side helper for the normalization claim, following its words:
collapse each maximal run of whitespace to a single underscore (`prevWs`
records whether the previous character was whitespace). -/
def collapseWsAux : Bool → List Char → List Char
  | _, [] => []
  | prevWs, c :: rest =>
    if c.isWhitespace then
      (if prevWs then [] else ['_']) ++ collapseWsAux true rest
    else
      c :: collapseWsAux false rest

/-- Spec-side normalization as the claim words it: the raw label string is
lower-cased and its internal whitespace is collapsed to underscores. -/
def specCollapseNormalize (raw : String) : String :=
  (collapseWsAux false (pyLower (pyStrip raw)).data).asString

/-- The claim's synonym table on a normalized label string. -/
def synonymTable (s : String) : ClassificationLabel :=
  if s = "positive" ∨ s = "pos" ∨ s = "positive_feedback" then .POSITIVE_FEEDBACK
  else if s = "negative" ∨ s = "neg" ∨ s = "negative_feedback" then .NEGATIVE_FEEDBACK
  else .QUERY

/-- Amended normalization: the trimmed, lower-cased raw label has each
space character (U+0020 only) replaced by one underscore; other whitespace
is untouched and a run of k spaces becomes k underscores. -/
def amendedNormalize (raw : String) : String :=
  pyReplaceSpaceUnderscore (pyLower (pyStrip raw))

/-- The label `classify` computes for a successfully parsed object response,
as a function of the raw value found in the `label` field. -/
def labelFromRawField (labelField : Option Json) : ClassificationLabel :=
  let labelValue := pyReplaceSpaceUnderscore (pyLower (pyStrip (pyStr (labelField.getD (.str "")))))
  if labelValue = "positive" ∨ labelValue = "positive_feedback" ∨ labelValue = "pos" then
    .POSITIVE_FEEDBACK
  else if labelValue = "negative" ∨ labelValue = "negative_feedback" ∨ labelValue = "neg" then
    .NEGATIVE_FEEDBACK
  else
    .QUERY

/-! ### Generic string helpers -/

theorem str_data_append (a b : String) : (a ++ b).data = a.data ++ b.data := by
  cases a; cases b; rfl

theorem str_eq_ext {a b : String} (h : a.data = b.data) : a = b := by
  cases a; cases b; exact congrArg String.mk h

theorem str_append_assoc (a b c : String) : a ++ b ++ c = a ++ (b ++ c) := by
  apply str_eq_ext
  simp [str_data_append, List.append_assoc]

theorem str_append_ne_empty_of_left {a : String} (b : String) (h : a ≠ "") :
    a ++ b ≠ "" := by
  intro he
  apply h
  have hd := congrArg String.data he
  rw [str_data_append] at hd
  exact str_eq_ext (List.append_eq_nil.mp hd).1

theorem pyTruthy_str_of_ne {s : String} (h : s ≠ "") : pyTruthy (.str s) = true := by
  simp [pyTruthy, bne_iff_ne, h]

theorem pyStr_num (n : Int) : pyStr (.num n) = toString n := by
  simp [pyStr, pyRepr]

/-- C1: for every message that is non-empty after trimming, when the gateway
call fails or its response is malformed/non-JSON (any exception inside the
`try` block of `classify`), the error does not propagate: `classify` returns
a result with label Query whose rationale contains the "unavailable" marker,
and when a trace id was supplied the rationale ends with that trace id. -/
theorem classify_gateway_failure_fallback (message : String) (traceId : Option String)
    (h : pyStrip message ≠ "") :
    ∃ s : String,
      classify message .failure traceId = .ok ⟨.QUERY, .str s⟩ ∧
      (∃ a b : String, s = a ++ "unavailable" ++ b) ∧
      (∀ t : String, traceId = some t → ∃ a : String, s = a ++ t) := by
  cases traceId with
  | none =>
    refine ⟨"Classifier unavailable; routing to query handler.", ?_, ?_, ?_⟩
    · simp [classify, h]
    · exact ⟨"Classifier ", "; routing to query handler.", by decide⟩
    · intro t ht
      exact absurd ht (by simp)
  | some t =>
    refine ⟨"Classifier unavailable; routing to query handler." ++ " trace_id=" ++ t, ?_, ?_, ?_⟩
    · simp [classify, h]
    · refine ⟨"Classifier ", "; routing to query handler. trace_id=" ++ t, ?_⟩
      have hs : "Classifier unavailable; routing to query handler." ++ " trace_id="
          = ("Classifier " ++ "unavailable") ++ "; routing to query handler. trace_id=" := by decide
      calc "Classifier unavailable; routing to query handler." ++ " trace_id=" ++ t
          = (("Classifier " ++ "unavailable") ++ "; routing to query handler. trace_id=") ++ t := by
            rw [hs]
        _ = ("Classifier " ++ "unavailable") ++ ("; routing to query handler. trace_id=" ++ t) :=
            str_append_assoc _ _ _
    · intro t' ht'
      cases ht'
      exact ⟨"Classifier unavailable; routing to query handler." ++ " trace_id=", rfl⟩

theorem classify_gateway_failure_fallback_witness :
    ∃ s : String,
      classify "My card never arrived" .failure (some "t1") = .ok ⟨.QUERY, .str s⟩ ∧
      (∃ a b : String, s = a ++ "unavailable" ++ b) ∧
      (∀ t : String, (some "t1" : Option String) = some t → ∃ a : String, s = a ++ t) :=
  classify_gateway_failure_fallback "My card never arrived" (some "t1") (by decide)

/-- C2 (code bug): the empty-message precondition does hold, but `classify`
is not total for non-empty input: `parsed.get(...)` sits outside the `try`
block, so a gateway response that is valid JSON but not a JSON object (here
the array `[1, 2]`) raises an uncaught `AttributeError`. -/
theorem classify_raises_on_non_object_json :
    classify "" .failure none = .error .valueError ∧
    classify "   " .failure none = .error .valueError ∧
    classify "hello" (.parsed (.arr [.num 1, .num 2])) none = .error .attributeError ∧
    classify "hello" (.parsed (.num 7)) none = .error .attributeError :=
  ⟨rfl, rfl, rfl, rfl⟩

/-- C9 (code bug): supplying a trace id is not label-neutral.  With the
well-formed gateway response `{"label": "positive", "rationale": 5}` (a
truthy non-string rationale), `classify` without a trace id returns
PositiveFeedback, while with a trace id the statement
`rationale += f" trace_id=..."` raises an uncaught `TypeError`. -/
theorem classify_trace_id_changes_outcome :
    classify "hi" (.parsed (.obj [("label", .str "positive"), ("rationale", .num 5)])) none
      = .ok ⟨.POSITIVE_FEEDBACK, .num 5⟩ ∧
    classify "hi" (.parsed (.obj [("label", .str "positive"), ("rationale", .num 5)])) (some "t1")
      = .error .typeError :=
  ⟨rfl, rfl⟩

/-- C10 counterexample: the rationale carried by a returned
`ClassificationResult` need not be a string.  With the response
`{"label": "positive", "rationale": 5}` and no trace id, `classify` returns
a result whose rationale is the number 5, not a string. -/
theorem classify_rationale_not_string :
    classify "hi" (.parsed (.obj [("label", .str "positive"), ("rationale", .num 5)])) none
      = .ok ⟨.POSITIVE_FEEDBACK, .num 5⟩ ∧
    (Json.num 5).isStringValue = false :=
  ⟨rfl, rfl⟩

/-- C10 (amended): every `ClassificationResult` returned by `classify`
carries a non-None, truthy rationale — never `None` and never the empty
string: the fixed fallback message, the model-supplied truthy rationale
value, or the default text.  (When the model supplies a truthy non-string
rationale and no trace id is given, that value is carried as-is rather than
as a string.) -/
theorem classify_rationale_always_present (message : String) (outcome : GatewayOutcome)
    (traceId : Option String) (res : ClassificationResult)
    (h : classify message outcome traceId = .ok res) :
    pyTruthy res.rationale = true ∧ res.rationale ≠ .null ∧ res.rationale ≠ .str "" := by
  suffices hT : pyTruthy res.rationale = true by
    refine ⟨hT, ?_, ?_⟩
    · intro he; rw [he] at hT; exact absurd hT (by decide)
    · intro he; rw [he] at hT; exact absurd hT (by decide)
  unfold classify at h
  by_cases hm : pyStrip message = ""
  · rw [if_pos hm] at h
    exact absurd h (by simp)
  · rw [if_neg hm] at h
    cases outcome with
    | failure =>
      cases traceId with
      | none =>
        injection h with h'
        rw [← h']
        decide
      | some t =>
        injection h with h'
        rw [← h']
        apply pyTruthy_str_of_ne
        apply str_append_ne_empty_of_left
        apply str_append_ne_empty_of_left
        decide
    | parsed j =>
      cases j with
      | null => exact absurd h (by simp)
      | bool b => exact absurd h (by simp)
      | num n => exact absurd h (by simp)
      | str s => exact absurd h (by simp)
      | arr elems => exact absurd h (by simp)
      | obj fields =>
        cases hv : jsonGet fields "rationale" with
        | none =>
          simp only [hv] at h
          cases traceId with
          | none =>
            injection h with h'
            rw [← h']
            rfl
          | some t =>
            injection h with h'
            rw [← h']
            apply pyTruthy_str_of_ne
            apply str_append_ne_empty_of_left
            apply str_append_ne_empty_of_left
            decide
        | some v =>
          simp only [hv] at h
          by_cases htv : pyTruthy v = true
          · simp only [htv, if_pos] at h
            cases traceId with
            | none =>
              injection h with h'
              rw [← h']
              exact htv
            | some t =>
              cases v with
              | str s =>
                injection h with h'
                rw [← h']
                apply pyTruthy_str_of_ne
                apply str_append_ne_empty_of_left
                apply str_append_ne_empty_of_left
                intro he
                rw [he] at htv
                exact absurd htv (by decide)
              | null => exact absurd h (by simp)
              | bool b => exact absurd h (by simp)
              | num n => exact absurd h (by simp)
              | arr elems => exact absurd h (by simp)
              | obj fields2 => exact absurd h (by simp)
          · rw [Bool.not_eq_true] at htv
            simp only [htv, Bool.false_eq_true, if_false] at h
            cases traceId with
            | none =>
              injection h with h'
              rw [← h']
              rfl
            | some t =>
              injection h with h'
              rw [← h']
              apply pyTruthy_str_of_ne
              apply str_append_ne_empty_of_left
              apply str_append_ne_empty_of_left
              decide

theorem classify_rationale_always_present_witness :
    pyTruthy (ClassificationResult.mk .QUERY
        (.str "Classifier unavailable; routing to query handler.")).rationale = true ∧
    (ClassificationResult.mk .QUERY
        (.str "Classifier unavailable; routing to query handler.")).rationale ≠ .null ∧
    (ClassificationResult.mk .QUERY
        (.str "Classifier unavailable; routing to query handler.")).rationale ≠ .str "" :=
  classify_rationale_always_present "hi" .failure none _ rfl

/-- C5 counterexample: the claim's normalization collapses internal
whitespace to underscores, which on the raw label "positive<TAB>feedback"
yields "positive_feedback" and hence PositiveFeedback; the code only
replaces space characters, so `classify` returns Query for that response. -/
theorem label_whitespace_collapse_counterexample :
    specCollapseNormalize "positive\tfeedback" = "positive_feedback" ∧
    synonymTable (specCollapseNormalize "positive\tfeedback") = .POSITIVE_FEEDBACK ∧
    classify "hi" (.parsed (.obj [("label", .str "positive\tfeedback")])) none
      = .ok ⟨.QUERY, .str "No rationale provided by model."⟩ :=
  ⟨by decide, by decide, rfl⟩

/-- C5 (amended): the raw label string is trimmed, lower-cased, and each
space character (U+0020 only) is replaced by one underscore — a run of k
spaces becomes k underscores, other whitespace is untouched — then
"positive"/"pos"/"positive_feedback" map to PositiveFeedback,
"negative"/"neg"/"negative_feedback" map to NegativeFeedback, and anything
else (including an empty, missing, or malformed label field) maps to
Query. -/
theorem classify_label_normalization (message : String) (fields : List (String × Json))
    (h : pyStrip message ≠ "") :
    (∃ rat, classify message (.parsed (.obj fields)) none
        = .ok ⟨synonymTable (amendedNormalize (pyStr ((jsonGet fields "label").getD (.str "")))), rat⟩) ∧
    synonymTable (amendedNormalize "Positive") = .POSITIVE_FEEDBACK ∧
    synonymTable (amendedNormalize "POS") = .POSITIVE_FEEDBACK ∧
    synonymTable (amendedNormalize "positive_feedback") = .POSITIVE_FEEDBACK ∧
    synonymTable (amendedNormalize "negative") = .NEGATIVE_FEEDBACK ∧
    synonymTable (amendedNormalize "NEG") = .NEGATIVE_FEEDBACK ∧
    synonymTable (amendedNormalize "") = .QUERY ∧
    synonymTable (amendedNormalize "Positive Feedback") = .POSITIVE_FEEDBACK ∧
    synonymTable (amendedNormalize "positive  feedback") = .QUERY ∧
    synonymTable (amendedNormalize "positive\tfeedback") = .QUERY ∧
    classify message (.parsed (.obj [])) none
      = .ok ⟨.QUERY, .str "No rationale provided by model."⟩ ∧
    classify message (.parsed (.obj [("label", .num 5)])) none
      = .ok ⟨.QUERY, .str "No rationale provided by model."⟩ := by
  have hlabel : ∀ v : String,
      (if v = "positive" ∨ v = "positive_feedback" ∨ v = "pos" then
        ClassificationLabel.POSITIVE_FEEDBACK
      else if v = "negative" ∨ v = "negative_feedback" ∨ v = "neg" then
        ClassificationLabel.NEGATIVE_FEEDBACK
      else ClassificationLabel.QUERY) = synonymTable v := by
    intro v
    unfold synonymTable
    split_ifs <;> first | rfl | tauto
  refine ⟨?_, by decide, by decide, by decide, by decide, by decide, by decide,
    by decide, by decide, by decide, ?_, ?_⟩
  · refine ⟨(match jsonGet fields "rationale" with
      | some v => if pyTruthy v then v else .str "No rationale provided by model."
      | none => .str "No rationale provided by model."), ?_⟩
    rw [← hlabel (amendedNormalize (pyStr ((jsonGet fields "label").getD (.str ""))))]
    simp only [classify]
    rw [if_neg h]
    rfl
  · simp only [classify]
    rw [if_neg h]
    rfl
  · simp only [classify]
    rw [if_neg h]
    have h5 : pyReplaceSpaceUnderscore (pyLower (pyStrip
        (pyStr ((jsonGet [("label", Json.num 5)] "label").getD (.str ""))))) = "5" := by
      show pyReplaceSpaceUnderscore (pyLower (pyStrip (pyStr (.num 5)))) = "5"
      rw [pyStr_num]
      rfl
    rw [h5]
    rfl

theorem classify_label_normalization_witness :
    ∃ rat, classify "hi" (.parsed (.obj [("label", Json.str "POS")])) none
      = .ok ⟨.POSITIVE_FEEDBACK, rat⟩ := by
  obtain ⟨rat, hrat⟩ := (classify_label_normalization "hi" [("label", Json.str "POS")] (by decide)).1
  have he : synonymTable (amendedNormalize
      (pyStr ((jsonGet [("label", Json.str "POS")] "label").getD (.str ""))))
      = ClassificationLabel.POSITIVE_FEEDBACK := by decide
  rw [he] at hrat
  exact ⟨rat, hrat⟩

/-- C8: frame property of `handle_message` — for every message classified as
PositiveFeedback, and for every message classified as Query (including one
whose referenced ticket does not exist), no ticket is created: the store
after the request is exactly the store before it. -/
theorem handle_message_non_negative_frame (message : String) (traceId : Option String)
    (outcome : GatewayOutcome) (r : Nat) (store : Store) (res : ClassificationResult)
    (hc : classify message outcome traceId = .ok res)
    (hl : res.label ≠ .NEGATIVE_FEEDBACK) :
    ∃ desc, handle_message message traceId outcome r store = .ok (desc, store) := by
  unfold handle_message
  rw [hc]
  rcases res with ⟨label, rat⟩
  cases label with
  | QUERY => exact ⟨_, rfl⟩
  | POSITIVE_FEEDBACK => exact ⟨_, rfl⟩
  | NEGATIVE_FEEDBACK => exact absurd rfl hl

theorem handle_message_non_negative_frame_witness :
    ∃ desc, handle_message "Status on ticket 650932?" none .failure 0 emptyStore
      = .ok (desc, emptyStore) :=
  handle_message_non_negative_frame "Status on ticket 650932?" none .failure 0 emptyStore
    ⟨.QUERY, .str "Classifier unavailable; routing to query handler."⟩ rfl (by decide)

/-! ### Store lemmas -/

theorem find?_filter_ne_key (l : List Ticket) (tn k : String) (h : tn ≠ k) :
    (l.filter (fun t => t.ticket_number != tn)).find? (fun t => t.ticket_number == k)
      = l.find? (fun t => t.ticket_number == k) := by
  induction l with
  | nil => rfl
  | cons t l ih =>
    by_cases htn : t.ticket_number = tn
    · simp [List.filter_cons, List.find?_cons, htn, h, ih]
    · simp [List.filter_cons, List.find?_cons, htn, ih]

theorem get_create_ticket (tn m s k : String) (st : Store) :
    get_ticket_status k (create_ticket tn m s st)
      = if tn = k then some s else get_ticket_status k st := by
  by_cases htn : tn = k
  · subst htn
    simp [get_ticket_status, create_ticket, List.find?_cons]
  · rw [if_neg htn]
    simp only [get_ticket_status, create_ticket, List.find?_cons]
    simp only [show (tn == k) = false by simp [htn]]
    rw [find?_filter_ne_key st.tickets tn k htn]

theorem get_applyCreates (ops : List CreateOp) (st : Store) (k : String) :
    get_ticket_status k (applyCreates st ops)
      = (lastCreateStatus ops k).or (get_ticket_status k st) := by
  induction ops generalizing st with
  | nil => simp [applyCreates, lastCreateStatus]
  | cons op ops ih =>
    rcases op with ⟨tn, m, s⟩
    rw [show applyCreates st ((tn, m, s) :: ops) = applyCreates (create_ticket tn m s st) ops from rfl]
    rw [ih]
    have hl : lastCreateStatus ((tn, m, s) :: ops) k
        = (lastCreateStatus ops k).or (if tn = k then some s else none) := by
      unfold lastCreateStatus
      rw [List.reverse_cons, List.find?_append]
      cases hfind : (ops.reverse.find? (fun op => op.1 == k)) with
      | none =>
        by_cases htn : tn = k <;> simp [hfind, htn, Option.or]
      | some o =>
        simp [hfind, Option.or]
    rw [hl, get_create_ticket]
    cases hlast : lastCreateStatus ops k with
    | some v => simp [Option.or]
    | none =>
      by_cases htn : tn = k <;> simp [htn, Option.or]

/-- C7: store round trip with last-writer-wins — after any sequence of
`create_ticket` calls on an initially empty store, `get_ticket_status k`
returns the status argument of the most recent create with key `k`, and is
absent (not an error) when no create used key `k`; in particular
`get_status("000000")` on the empty store is absent. -/
theorem store_round_trip_last_writer_wins (ops : List CreateOp) (k : String) :
    get_ticket_status k (applyCreates emptyStore ops) = lastCreateStatus ops k ∧
    get_ticket_status "000000" emptyStore = none := by
  constructor
  · rw [get_applyCreates]
    cases h : lastCreateStatus ops k with
    | none => simp [get_ticket_status, emptyStore, Option.or]
    | some v => simp [Option.or]
  · rfl

/-- C4 counterexample: on a ticket-number collision nothing is regenerated —
with ticket "123456" already in the store (message "old complaint") and the
random draw producing the same number, `handle_message` on a
NegativeFeedback classification overwrites the existing ticket: afterwards
the store holds exactly one ticket "123456" carrying the new message, and
the old ticket is gone. -/
theorem ticket_collision_overwrite_counterexample :
    get_ticket_status "123456" (create_ticket "123456" "old complaint" "Unresolved" emptyStore)
      = some "Unresolved" ∧
    generate_ticket_number 23456 = "123456" ∧
    handle_message "new complaint" none (.parsed (.obj [("label", .str "negative")])) 23456
        (create_ticket "123456" "old complaint" "Unresolved" emptyStore)
      = .ok (negativeTaskDescription "new complaint" "123456",
             ⟨[⟨"123456", "Unresolved", "new complaint"⟩]⟩) :=
  ⟨rfl, rfl, rfl⟩

/-- C4 (amended): when the freshly generated ticket number collides with a
ticket already in the store, the Router does not regenerate: the store's
`INSERT OR REPLACE` overwrites the existing ticket (last-writer-wins) with
the new message and status "Unresolved", leaving all other tickets
untouched. -/
theorem handle_message_collision_overwrites (message : String) (traceId : Option String)
    (outcome : GatewayOutcome) (r : Nat) (store : Store) (res : ClassificationResult)
    (s0 : String)
    (hc : classify message outcome traceId = .ok res)
    (hl : res.label = .NEGATIVE_FEEDBACK)
    (_hcol : get_ticket_status (generate_ticket_number r) store = some s0) :
    handle_message message traceId outcome r store
      = .ok (negativeTaskDescription message (generate_ticket_number r),
             create_ticket (generate_ticket_number r) message "Unresolved" store) ∧
    get_ticket_status (generate_ticket_number r)
        (create_ticket (generate_ticket_number r) message "Unresolved" store)
      = some "Unresolved" ∧
    (create_ticket (generate_ticket_number r) message "Unresolved" store).tickets.filter
        (fun t => t.ticket_number == generate_ticket_number r)
      = [⟨generate_ticket_number r, "Unresolved", message⟩] ∧
    (create_ticket (generate_ticket_number r) message "Unresolved" store).tickets.filter
        (fun t => t.ticket_number != generate_ticket_number r)
      = store.tickets.filter (fun t => t.ticket_number != generate_ticket_number r) := by
  refine ⟨?_, ?_, ?_, ?_⟩
  · unfold handle_message
    rw [hc]
    rcases res with ⟨label, rat⟩
    cases label with
    | QUERY => exact absurd hl (by simp)
    | POSITIVE_FEEDBACK => exact absurd hl (by simp)
    | NEGATIVE_FEEDBACK => rfl
  · rw [get_create_ticket]
    rw [if_pos rfl]
  · simp only [create_ticket]
    rw [List.filter_cons_of_pos]
    · rw [List.filter_filter]
      have hfalse : ∀ t : Ticket,
          ((t.ticket_number == generate_ticket_number r)
            && (t.ticket_number != generate_ticket_number r)) = false := by
        intro t
        cases hbe : (t.ticket_number == generate_ticket_number r) <;> simp [bne, hbe]
      simp only [hfalse]
      simp
    · simp
  · simp only [create_ticket]
    rw [List.filter_cons_of_neg]
    · rw [List.filter_filter]
      have hsame : ∀ t : Ticket,
          ((t.ticket_number != generate_ticket_number r)
            && (t.ticket_number != generate_ticket_number r))
          = (t.ticket_number != generate_ticket_number r) := by
        intro t
        exact Bool.and_self _
      simp only [hsame]
    · simp

theorem handle_message_collision_overwrites_witness :
    handle_message "new complaint" none (.parsed (.obj [("label", .str "negative")])) 23456
        (create_ticket "123456" "old complaint" "Unresolved" emptyStore)
      = .ok (negativeTaskDescription "new complaint" (generate_ticket_number 23456),
             create_ticket (generate_ticket_number 23456) "new complaint" "Unresolved"
               (create_ticket "123456" "old complaint" "Unresolved" emptyStore)) ∧
    get_ticket_status (generate_ticket_number 23456)
        (create_ticket (generate_ticket_number 23456) "new complaint" "Unresolved"
          (create_ticket "123456" "old complaint" "Unresolved" emptyStore))
      = some "Unresolved" ∧
    (create_ticket (generate_ticket_number 23456) "new complaint" "Unresolved"
        (create_ticket "123456" "old complaint" "Unresolved" emptyStore)).tickets.filter
        (fun t => t.ticket_number == generate_ticket_number 23456)
      = [⟨generate_ticket_number 23456, "Unresolved", "new complaint"⟩] ∧
    (create_ticket (generate_ticket_number 23456) "new complaint" "Unresolved"
        (create_ticket "123456" "old complaint" "Unresolved" emptyStore)).tickets.filter
        (fun t => t.ticket_number != generate_ticket_number 23456)
      = (create_ticket "123456" "old complaint" "Unresolved" emptyStore).tickets.filter
        (fun t => t.ticket_number != generate_ticket_number 23456) :=
  handle_message_collision_overwrites "new complaint" none
    (.parsed (.obj [("label", .str "negative")])) 23456
    (create_ticket "123456" "old complaint" "Unresolved" emptyStore)
    ⟨.NEGATIVE_FEEDBACK, .str "No rationale provided by model."⟩ "Unresolved" rfl rfl rfl

/-! ### Extraction lemmas -/

theorem standalone6At_length {l : List Char} {i : Nat} (h : standalone6At l i = true) :
    i + 6 ≤ l.length := by
  unfold standalone6At sixDigitsAt at h
  simp only [Bool.and_eq_true, beq_iff_eq] at h
  have hlen := h.1.1.1
  rw [List.length_take, List.length_drop] at hlen
  omega

theorem firstMatchAux_some {l : List Char} :
    ∀ fuel i k, firstMatchAux l i fuel = some k →
      i ≤ k ∧ k < i + fuel ∧ standalone6At l k = true ∧
        ∀ j, i ≤ j → j < k → standalone6At l j = false := by
  intro fuel
  induction fuel with
  | zero =>
    intro i k h
    exact absurd h (by simp [firstMatchAux])
  | succ fuel ih =>
    intro i k h
    unfold firstMatchAux at h
    by_cases hs : standalone6At l i = true
    · rw [if_pos hs] at h
      injection h with h'
      subst h'
      exact ⟨Nat.le_refl _, by omega, hs, fun j hij hjk => absurd hij (by omega)⟩
    · rw [if_neg hs] at h
      obtain ⟨h1, h2, h3, h4⟩ := ih (i + 1) k h
      refine ⟨by omega, by omega, h3, ?_⟩
      intro j hij hjk
      by_cases hji : j = i
      · subst hji
        cases hb : standalone6At l j with
        | false => rfl
        | true => exact absurd hb hs
      · exact h4 j (by omega) hjk

theorem firstMatchAux_none {l : List Char} :
    ∀ fuel i, firstMatchAux l i fuel = none →
      ∀ j, i ≤ j → j < i + fuel → standalone6At l j = false := by
  intro fuel
  induction fuel with
  | zero =>
    intro i _ j h1 h2
    omega
  | succ fuel ih =>
    intro i h j h1 h2
    unfold firstMatchAux at h
    by_cases hs : standalone6At l i = true
    · rw [if_pos hs] at h
      exact absurd h (by simp)
    · rw [if_neg hs] at h
      by_cases hji : j = i
      · subst hji
        cases hb : standalone6At l j with
        | false => rfl
        | true => exact absurd hb hs
      · exact ih (i + 1) h j (by omega) (by omega)

/-- C6: `extract_ticket_number` returns exactly the first standalone run of
six consecutive digits (a `\b`-delimited `\d{6}` match): it is `none` iff no
position matches, it returns the six digits at the leftmost matching
position, the returned token always has length 6 and consists of digits,
and on the concrete examples: "650932" is extracted, a text with no digits
yields `none`, and a standalone 5-digit or 7-digit run does not match. -/
theorem extract_ticket_number_spec (s : String) :
    (extract_ticket_number s = none ↔ ∀ i, standalone6At s.data i = false) ∧
    (∀ i, standalone6At s.data i = true →
      (∀ j, j < i → standalone6At s.data j = false) →
      extract_ticket_number s = some (((s.data.drop i).take 6).asString)) ∧
    (∀ t, extract_ticket_number s = some t →
      t.length = 6 ∧ ∀ c ∈ t.data, c.isDigit = true) ∧
    extract_ticket_number "Could you check 650932 please?" = some "650932" ∧
    extract_ticket_number "no numbers here" = none ∧
    extract_ticket_number "checking 12345 now" = none ∧
    extract_ticket_number "checking 1234567 now" = none := by
  refine ⟨⟨?_, ?_⟩, ?_, ?_, by decide, by decide, by decide, by decide⟩
  · intro h i
    unfold extract_ticket_number at h
    cases hf : firstMatchAux s.data 0 s.data.length with
    | some k =>
      rw [hf] at h
      exact absurd h (by simp)
    | none =>
      by_cases hi : i < s.data.length
      · exact firstMatchAux_none _ _ hf i (by omega) (by omega)
      · cases hb : standalone6At s.data i with
        | false => rfl
        | true =>
          have := standalone6At_length hb
          omega
  · intro h
    unfold extract_ticket_number
    cases hf : firstMatchAux s.data 0 s.data.length with
    | none => rfl
    | some k =>
      obtain ⟨_, _, h3, _⟩ := firstMatchAux_some _ _ _ hf
      rw [h k] at h3
      exact absurd h3 (by simp)
  · intro i hi hmin
    unfold extract_ticket_number
    cases hf : firstMatchAux s.data 0 s.data.length with
    | none =>
      have hlen := standalone6At_length hi
      have hfalse := firstMatchAux_none _ _ hf i (by omega) (by omega)
      rw [hfalse] at hi
      exact absurd hi (by simp)
    | some k =>
      obtain ⟨h1, h2, h3, h4⟩ := firstMatchAux_some _ _ _ hf
      have hik : i = k := by
        rcases Nat.lt_trichotomy i k with hlt | heq | hgt
        · rw [h4 i (by omega) hlt] at hi
          exact absurd hi (by simp)
        · exact heq
        · rw [hmin k hgt] at h3
          exact absurd h3 (by simp)
      subst hik
      rfl
  · intro t ht
    unfold extract_ticket_number at ht
    cases hf : firstMatchAux s.data 0 s.data.length with
    | none =>
      rw [hf] at ht
      exact absurd ht (by simp)
    | some k =>
      rw [hf] at ht
      simp only [Option.map_some'] at ht
      obtain ⟨_, _, h3, _⟩ := firstMatchAux_some _ _ _ hf
      unfold standalone6At sixDigitsAt at h3
      simp only [Bool.and_eq_true, beq_iff_eq, List.all_eq_true] at h3
      obtain ⟨⟨⟨hlen, hall⟩, _⟩, _⟩ := h3
      injection ht with ht'
      subst ht'
      constructor
      · rw [List.length_asString]
        exact hlen
      · intro c hc
        exact hall c hc

theorem extract_ticket_number_spec_witness :
    extract_ticket_number "Could you check 650932 please?" = some "650932" :=
  (extract_ticket_number_spec "Could you check 650932 please?").2.2.2.1

/-! ### Decimal representation lemmas -/

theorem digitChar_isDigit {k : Nat} (h : k < 10) : (Nat.digitChar k).isDigit = true := by
  interval_cases k <;> rfl

theorem reprDigits_eq_of_lt {n : Nat} (h : n < 10) :
    reprDigits n = [Nat.digitChar n] := by
  conv_lhs => unfold reprDigits
  rw [dif_pos h]

theorem reprDigits_eq_of_ge {n : Nat} (h : ¬ n < 10) :
    reprDigits n = reprDigits (n / 10) ++ [Nat.digitChar (n % 10)] := by
  conv_lhs => unfold reprDigits
  rw [dif_neg h]

theorem toDigitsCore_eq_reprDigits :
    ∀ (fuel n : Nat) (ds : List Char), n < 10 ^ (fuel + 1) →
      Nat.toDigitsCore 10 (fuel + 1) n ds = reprDigits n ++ ds := by
  intro fuel
  induction fuel with
  | zero =>
    intro n ds h
    have h10 : n < 10 := by simpa using h
    have hdiv : n / 10 = 0 := by omega
    simp only [Nat.toDigitsCore]
    rw [if_pos hdiv, reprDigits_eq_of_lt h10, Nat.mod_eq_of_lt h10]
    rfl
  | succ fuel ih =>
    intro n ds h
    rw [show Nat.toDigitsCore 10 (fuel + 1 + 1) n ds
        = if n / 10 = 0 then (n % 10).digitChar :: ds
          else Nat.toDigitsCore 10 (fuel + 1) (n / 10) ((n % 10).digitChar :: ds) from rfl]
    by_cases hdiv : n / 10 = 0
    · rw [if_pos hdiv]
      have h10 : n < 10 := by omega
      rw [reprDigits_eq_of_lt h10, Nat.mod_eq_of_lt h10]
      rfl
    · rw [if_neg hdiv]
      have hlt : n / 10 < 10 ^ (fuel + 1) := by
        rw [Nat.div_lt_iff_lt_mul (by omega : 0 < 10)]
        calc n < 10 ^ (fuel + 1 + 1) := h
          _ = 10 ^ (fuel + 1) * 10 := by rw [pow_succ]
      rw [ih (n / 10) (Nat.digitChar (n % 10) :: ds) hlt]
      have h10 : ¬ n < 10 := by omega
      rw [reprDigits_eq_of_ge h10, List.append_assoc]
      rfl

theorem repr_data_eq_reprDigits (n : Nat) : (Nat.repr n).data = reprDigits n := by
  show (Nat.toDigits 10 n).asString.data = reprDigits n
  unfold Nat.toDigits
  have h : n < 10 ^ (n + 1) :=
    Nat.lt_of_lt_of_le (Nat.lt_pow_self (by omega) n)
      (Nat.pow_le_pow_right (by omega) (by omega))
  rw [toDigitsCore_eq_reprDigits n n [] h]
  simp [List.asString]

theorem reprDigits_length : ∀ (e n : Nat), 10 ^ e ≤ n → n < 10 ^ (e + 1) →
    (reprDigits n).length = e + 1 := by
  intro e
  induction e with
  | zero =>
    intro n h1 h2
    have h10 : n < 10 := by simpa using h2
    rw [reprDigits_eq_of_lt h10]
    rfl
  | succ e ih =>
    intro n h1 h2
    have hbase : (10 : Nat) ≤ 10 ^ (e + 1) := by
      calc (10 : Nat) = 10 ^ 1 := (pow_one 10).symm
        _ ≤ 10 ^ (e + 1) := Nat.pow_le_pow_right (by omega) (by omega)
    have h10 : ¬ n < 10 := by omega
    rw [reprDigits_eq_of_ge h10, List.length_append]
    have hlo : 10 ^ e ≤ n / 10 := by
      rw [Nat.le_div_iff_mul_le (by omega : 0 < 10)]
      calc 10 ^ e * 10 = 10 ^ (e + 1) := (pow_succ 10 e).symm
        _ ≤ n := h1
    have hhi : n / 10 < 10 ^ (e + 1) := by
      rw [Nat.div_lt_iff_lt_mul (by omega : 0 < 10)]
      calc n < 10 ^ (e + 1 + 1) := h2
        _ = 10 ^ (e + 1) * 10 := by rw [pow_succ]
    rw [ih (n / 10) hlo hhi]
    rfl

theorem reprDigits_all_digits : ∀ n : Nat, ∀ c ∈ reprDigits n, c.isDigit = true := by
  intro n
  induction n using Nat.strong_induction_on with
  | _ n ih =>
    by_cases h10 : n < 10
    · rw [reprDigits_eq_of_lt h10]
      intro c hc
      rw [List.mem_singleton] at hc
      subst hc
      exact digitChar_isDigit h10
    · rw [reprDigits_eq_of_ge h10]
      intro c hc
      rw [List.mem_append] at hc
      rcases hc with hc | hc
      · exact ih (n / 10) (Nat.div_lt_self (by omega) (by omega)) c hc
      · rw [List.mem_singleton] at hc
        subst hc
        exact digitChar_isDigit (Nat.mod_lt _ (by omega))

/-- C3: on a NegativeFeedback classification, `handle_message` generates a
ticket number that is a 6-digit numeric string in [100000, 999999], creates
exactly one ticket with status "Unresolved" carrying the original message
text, and the instructions built for the responder contain that same ticket
number. -/
theorem handle_message_negative_creates_ticket (message : String) (traceId : Option String)
    (outcome : GatewayOutcome) (r : Nat) (store : Store) (res : ClassificationResult)
    (hr : r < 900000)
    (hc : classify message outcome traceId = .ok res)
    (hl : res.label = .NEGATIVE_FEEDBACK)
    (hfresh : get_ticket_status (generate_ticket_number r) store = none) :
    (generate_ticket_number r).length = 6 ∧
    (∀ c ∈ (generate_ticket_number r).data, c.isDigit = true) ∧
    (∃ n : Nat, generate_ticket_number r = Nat.repr n ∧ 100000 ≤ n ∧ n ≤ 999999) ∧
    handle_message message traceId outcome r store
      = .ok (negativeTaskDescription message (generate_ticket_number r),
             ⟨⟨generate_ticket_number r, "Unresolved", message⟩ :: store.tickets⟩) ∧
    get_ticket_status (generate_ticket_number r)
        (create_ticket (generate_ticket_number r) message "Unresolved" store)
      = some "Unresolved" ∧
    (∃ a b : String, negativeTaskDescription message (generate_ticket_number r)
      = a ++ generate_ticket_number r ++ b) := by
  have hdata : (generate_ticket_number r).data = reprDigits (r + 100000) :=
    repr_data_eq_reprDigits (r + 100000)
  have hpow5 : (10 : Nat) ^ 5 = 100000 := by norm_num
  have hpow6 : (10 : Nat) ^ 6 = 1000000 := by norm_num
  refine ⟨?_, ?_, ?_, ?_, ?_, ?_⟩
  · show (generate_ticket_number r).data.length = 6
    rw [hdata]
    rw [reprDigits_length 5 (r + 100000) (by omega) (by rw [show (5:Nat) + 1 = 6 from rfl]; omega)]
  · intro c hc2
    rw [hdata] at hc2
    exact reprDigits_all_digits (r + 100000) c hc2
  · exact ⟨r + 100000, rfl, by omega, by omega⟩
  · unfold handle_message
    rw [hc]
    have hfind : store.tickets.find?
        (fun t => t.ticket_number == generate_ticket_number r) = none := by
      unfold get_ticket_status at hfresh
      exact Option.map_eq_none'.mp hfresh
    have hfilter : store.tickets.filter
        (fun t => t.ticket_number != generate_ticket_number r) = store.tickets := by
      rw [List.filter_eq_self]
      intro t ht
      have hne := List.find?_eq_none.mp hfind t ht
      simp only [beq_iff_eq] at hne
      simp [hne]
    rcases res with ⟨label, rat⟩
    cases label with
    | QUERY => exact absurd hl (by simp)
    | POSITIVE_FEEDBACK => exact absurd hl (by simp)
    | NEGATIVE_FEEDBACK =>
      simp only [create_ticket, hfilter]
  · rw [get_create_ticket, if_pos rfl]
  · refine ⟨"Customer message: " ++ message ++ "\n" ++ "Ticket number: ",
      "\n" ++ "Respond with empathy, apologize, and include the ticket number.\n" ++
      "Format guidance: `We apologize for the inconvenience. A new ticket #[TicketNumber] has been generated, and our team will follow up shortly.`\n" ++
      "Keep it to 1-2 sentences. Include the trace_id if provided.", ?_⟩
    apply str_eq_ext
    simp only [negativeTaskDescription, str_data_append, List.append_assoc]

theorem handle_message_negative_creates_ticket_witness :
    (generate_ticket_number 281581).length = 6 ∧
    (∀ c ∈ (generate_ticket_number 281581).data, c.isDigit = true) ∧
    (∃ n : Nat, generate_ticket_number 281581 = Nat.repr n ∧ 100000 ≤ n ∧ n ≤ 999999) ∧
    handle_message "My card never arrived" none
        (.parsed (.obj [("label", .str "negative")])) 281581 emptyStore
      = .ok (negativeTaskDescription "My card never arrived" (generate_ticket_number 281581),
             ⟨⟨generate_ticket_number 281581, "Unresolved", "My card never arrived"⟩
               :: emptyStore.tickets⟩) ∧
    get_ticket_status (generate_ticket_number 281581)
        (create_ticket (generate_ticket_number 281581) "My card never arrived" "Unresolved"
          emptyStore)
      = some "Unresolved" ∧
    (∃ a b : String,
      negativeTaskDescription "My card never arrived" (generate_ticket_number 281581)
        = a ++ generate_ticket_number 281581 ++ b) :=
  handle_message_negative_creates_ticket "My card never arrived" none
    (.parsed (.obj [("label", .str "negative")])) 281581 emptyStore
    ⟨.NEGATIVE_FEEDBACK, .str "No rationale provided by model."⟩
    (by omega) rfl rfl rfl
